import Mathlib

/-!
Shallow embedding of the order/identity/file-lifecycle core of the
Raman-Printers repository (Next.js + Prisma print-shop app).

Embedded source files:
* `src/lib/errorHandler.ts` — validation helpers, error responses,
  `handlePrismaError`.
* `src/app/api/orders/[id]/files/[fileName]/route.ts` (`DELETE`) — file
  detach with cancel-on-empty / price recomputation.
* `src/app/api/orders/route.ts` (`POST`, `PATCH`) — order creation and
  admin status update (the revision carrying the phone-exists and
  token-phone-mismatch checks and the three-value status enum).
* `src/app/api/orders/[id]/cancel/route.ts` (`POST`) — user cancellation
  gated by payment state.
* `src/app/api/token/route.ts` (`POST`) — token issue/rotate with the
  bounded collision-retry loop.
* `src/app/api/admin/users/route.ts` (`PATCH`) — bulk verification.

Conventions: JS numbers are modelled as `Int` (all arithmetic in the
embedded code is on integer-valued data), absent/`undefined` JSON fields as
`Option`, the relational store as in-memory lists with Prisma's lookup and
update semantics spelled out, and the blob store / filesystem delete as a
boolean oracle (`blobOk`) since its failure is swallowed by the code.
Timestamps are not modelled (no claim mentions them).
-/

deriving instance DecidableEq for Except

namespace RamanPrinters

/-- `OrderStatus` enum, exactly as in `prisma/migrations/.../migration.sql`:
`PENDING`, `COMPLETED`, `CANCELLED`. -/
inductive OrderStatus where
  | PENDING
  | COMPLETED
  | CANCELLED
  deriving DecidableEq, Repr

/-- `PaymentStatus` enum, exactly as in the migration:
`PENDING`, `PAID`, `VERIFIED`. -/
inductive PaymentStatus where
  | PENDING
  | PAID
  | VERIFIED
  deriving DecidableEq, Repr

/-- One entry of an order's `files` JSON array.  The detach route reads
`name`, `pages` (optional, `pages?: number`) and `path` (used only to pick
the blob-vs-filesystem delete). -/
structure FileDescriptor where
  name : String
  pages : Option Int := none
  path : Option String := none
  deriving DecidableEq, Repr

/-- A `User` row (`User` model): `id`, `phone` (unique), `tokenId`
(unique), `isVerified`. -/
structure User where
  id : String
  phone : String
  tokenId : String
  isVerified : Bool
  deriving DecidableEq, Repr

/-- An `Order` row (`Order` model).  `pages` is the stored total page
count, `totalAmount` the stored price. -/
structure Order where
  id : String
  name : String
  phone : String
  pages : Int
  tokenId : String
  copies : Int
  notes : Option String := none
  totalAmount : Int
  status : OrderStatus
  paymentStatus : PaymentStatus
  files : List FileDescriptor
  userId : String
  deriving DecidableEq, Repr

/-- The relational store: the `User` and `Order` tables. -/
structure DB where
  users : List User
  orders : List Order
  deriving DecidableEq, Repr

/-- `prisma.order.findUnique({ where: { id } })`. -/
def DB.findOrder (db : DB) (oid : String) : Option Order :=
  db.orders.find? fun o => o.id == oid

/-- `prisma.user.findUnique({ where: { phone } })`. -/
def DB.findUserByPhone (db : DB) (phone : String) : Option User :=
  db.users.find? fun u => u.phone == phone

/-- `prisma.user.findUnique({ where: { tokenId } })`. -/
def DB.findUserByToken (db : DB) (tok : String) : Option User :=
  db.users.find? fun u => u.tokenId == tok

/-- `prisma.order.update({ where: { id }, data })`: rewrite the matching
row in place. -/
def DB.updateOrder (db : DB) (oid : String) (f : Order → Order) : DB :=
  { db with orders := db.orders.map fun o => if o.id == oid then f o else o }

/-- The `{success: false, error, code, ...}` JSON envelope built by
`createErrorResponse` in `src/lib/errorHandler.ts`, together with the HTTP
status it is sent with.  `currentStatus` models the `details:
\x7bcurrentStatus\x7d` payload attached by the cancel and detach routes. -/
structure ErrResponse where
  error : String
  code : String
  httpStatus : Nat
  field : Option String := none
  suggestion : Option String := none
  currentStatus : Option OrderStatus := none
  deriving DecidableEq, Repr

/-- `validatePhone` from `src/lib/errorHandler.ts`: strip non-digits
(`phone.replace(/\D+/g tweaked: per-char)`) and require exactly ten digits. -/
def validPhone (phone : String) : Bool :=
  (phone.toList.filter Char.isDigit).length == 10 && phone != ""

/-- JS `String.prototype.trim()`: strip whitespace from both ends
(modelled character-wise so it evaluates inside the kernel). -/
def jsTrim (s : String) : String :=
  String.mk ((((s.toList.dropWhile Char.isWhitespace).reverse.dropWhile
    Char.isWhitespace).reverse))

/-- `validateTokenId` from `src/lib/errorHandler.ts`: trimmed length at
least 10. -/
def validTokenId (tok : String) : Bool :=
  (jsTrim tok).length ≥ 10

/-- `validateCuid` from `src/lib/errorHandler.ts`: `/^c[a-z0-9]\x7b24\x7d$/`. -/
def validCuid (id : String) : Bool :=
  match id.toList with
  | [] => false
  | c :: rest =>
    c == 'c' && rest.length == 24 &&
      rest.all fun ch => ('a' ≤ ch && ch ≤ 'z') || ('0' ≤ ch && ch ≤ '9')

/-- Character step of `sanitizeFilename`: `[^a-zA-Z0-9.-]` becomes `_`. -/
def sanitizeChar (c : Char) : Char :=
  if c.isAlphanum || c == '.' || c == '-' then c else '_'

/-- Dot-run collapse step of `sanitizeFilename`: `/\.\x7b2,\x7d/g` becomes `.`. -/
def collapseDots : List Char → List Char
  | [] => []
  | [c] => [c]
  | c :: d :: rest =>
    if c == '.' && d == '.' then collapseDots (d :: rest)
    else c :: collapseDots (d :: rest)

/-- `sanitizeFilename` from `src/lib/errorHandler.ts`: replace disallowed
characters with `_`, collapse dot runs, truncate to 100 characters. -/
def sanitizeFilename (filename : String) : String :=
  String.mk ((collapseDots (filename.toList.map sanitizeChar)).take 100)

/-- The Prisma errors distinguished by `handlePrismaError`.
`uniqueViolation fieldName` is `P2002` with `meta.target = [fieldName]`. -/
inductive PrismaErr where
  | uniqueViolation (fieldName : String)
  | recordNotFound
  | foreignKey
  | generic
  deriving DecidableEq, Repr

/-- `handlePrismaError` from `src/lib/errorHandler.ts`. -/
def handlePrismaError : PrismaErr → ErrResponse
  | .uniqueViolation fieldName =>
    { error := "This " ++ fieldName ++ " is already in use"
      code := if fieldName == "phone" then "PHONE_EXISTS" else "DUPLICATE_FILE"
      httpStatus := 409
      suggestion := some (if fieldName == "phone" then
        "If you are an existing user, please uncheck \"I\x27m new user\" and enter your Token ID"
      else "Please use a different filename") }
  | .recordNotFound =>
    { error := "Record not found", code := "ORDER_NOT_FOUND", httpStatus := 404 }
  | .foreignKey =>
    { error := "Invalid reference", code := "INVALID_REFERENCE", httpStatus := 400 }
  | .generic =>
    { error := "Database operation failed", code := "DATABASE_OPERATION_FAILED"
      httpStatus := 500, suggestion := some "Please try again later" }

/-- JS `f.pages || 1` in the detach route's recomputation: `undefined` and
`0` are falsy and count as `1`; any other stored number is used as-is. -/
def jsPagesOrOne : Option Int → Int
  | none => 1
  | some v => if v == 0 then 1 else v

/-- Success payload of the detach route: the `orderCancelled` and
`fileDeleted` flags of the JSON response, plus the updated order row that
the non-cancel branch echoes back (`order: updatedOrder`). -/
structure DetachOk where
  orderCancelled : Bool
  fileDeleted : Bool
  updatedOrder : Option Order := none
  deriving DecidableEq, Repr

/-- Full outcome of one detach request: the HTTP-level result, the store
afterwards, and whether the handler reached the storage-delete step
(`blobDeleteAttempted`). -/
structure DetachResult where
  response : Except ErrResponse DetachOk
  db : DB
  blobDeleteAttempted : Bool
  deriving Repr

/-- `DELETE` of `src/app/api/orders/[id]/files/[fileName]/route.ts`,
step for step: parameter presence, CUID validation, filename sanitation
check, order lookup, PENDING gate, file lookup, best-effort storage delete
(outcome `blobOk`), then either cancel-on-empty or recompute-and-persist. -/
def removeFileDELETE (orderId fileName : String) (blobOk : Bool) (db : DB) :
    DetachResult :=
  if orderId == "" || fileName == "" then
    ⟨.error { error := "Order ID and file name are required", code := "MISSING_FIELDS"
              httpStatus := 400
              suggestion := some "Please provide both order ID and file name" },
     db, false⟩
  else if !validCuid orderId then
    ⟨.error { error := "Invalid ID format", code := "VALIDATION", httpStatus := 400
              field := some "id" }, db, false⟩
  else if sanitizeFilename fileName != fileName then
    ⟨.error { error := "Invalid file name format", code := "VALIDATION", httpStatus := 400
              suggestion := some "File name contains invalid characters" }, db, false⟩
  else
    match db.findOrder orderId with
    | none =>
      ⟨.error { error := "Order not found", code := "ORDER_NOT_FOUND", httpStatus := 404
                suggestion := some "Check if the order ID is correct" }, db, false⟩
    | some order =>
      if order.status != .PENDING then
        ⟨.error { error := "Can only remove files from pending orders"
                  code := "ORDER_CANNOT_CANCEL", httpStatus := 400
                  currentStatus := some order.status
                  suggestion := some "Only pending orders allow file removal" },
         db, false⟩
      else
        let files := order.files
        match files.find? (fun f => f.name == fileName) with
        | none =>
          ⟨.error { error := "File not found in order", code := "NOT_FOUND"
                    httpStatus := 404
                    suggestion := some "Check if the file name is correct" },
           db, false⟩
        | some _ =>
          let fileDeleted := blobOk
          let updatedFiles := files.filter fun f => f.name != fileName
          if updatedFiles.isEmpty then
            ⟨.ok { orderCancelled := true, fileDeleted := fileDeleted },
             db.updateOrder orderId (fun o => { o with files := [], status := .CANCELLED }),
             true⟩
          else
            let totalPages := updatedFiles.foldl (fun sum f => sum + jsPagesOrOne f.pages) 0
            let totalAmount := totalPages * order.copies * 5
            let updatedOrder :=
              { order with files := updatedFiles, pages := totalPages
                           totalAmount := totalAmount }
            ⟨.ok { orderCancelled := false, fileDeleted := fileDeleted
                   updatedOrder := some updatedOrder },
             db.updateOrder orderId (fun o =>
               { o with files := updatedFiles, pages := totalPages
                        totalAmount := totalAmount }),
             true⟩

/-- Request body of `POST /api/orders` (create).  Absent JSON fields are
`none`; `notes` and `tokenId` are optional in the source too. -/
structure CreateBody where
  name : Option String := none
  phone : Option String := none
  copies : Option Int := none
  notes : Option String := none
  pages : Option Int := none
  files : Option (List FileDescriptor) := none
  isNewUser : Option Bool := none
  tokenId : Option String := none
  deriving DecidableEq, Repr

/-- Success payload of the create route
(`{orderId, tokenId, isNewUser, totalAmount}`). -/
structure CreateOk where
  orderId : String
  tokenId : String
  isNewUser : Bool
  totalAmount : Int
  deriving DecidableEq, Repr

/-- `validateRequiredFields` missing-test for a string-typed field:
`undefined`, `null`, or a blank string is missing. -/
def strFieldMissing : Option String → Bool
  | none => true
  | some s => jsTrim s == ""

/-- The missing entries among the create route's
`['name', 'phone', 'copies', 'pages', 'files', 'isNewUser']`, in that
order (non-string fields are missing exactly when absent). -/
def createMissingFields (b : CreateBody) : List String :=
  (if strFieldMissing b.name then ["name"] else []) ++
  (if strFieldMissing b.phone then ["phone"] else []) ++
  (if b.copies.isNone then ["copies"] else []) ++
  (if b.pages.isNone then ["pages"] else []) ++
  (if b.files.isNone then ["files"] else []) ++
  (if b.isNewUser.isNone then ["isNewUser"] else [])

/-- The `MISSING_FIELDS` response of `validateRequiredFields`. -/
def missingFieldsErr (missing : List String) : ErrResponse :=
  { error := "Missing required fields: " ++ String.intercalate ", " missing
    code := "MISSING_FIELDS", httpStatus := 400
    field := missing.head?
    suggestion := some "Please fill in all required fields" }

/-- JS `notes?.trim() || null` in the create route. -/
def jsNotesOrNull : Option String → Option String
  | none => none
  | some s => if jsTrim s == "" then none else some (jsTrim s)

/-- Shared tail of the create route once a user row is in hand: compute
`totalAmount = pages * copies * PRICE_PER_PAGE` and insert the order with
`status = PENDING`, `paymentStatus = PENDING`. -/
def finishCreate (b : CreateBody) (user : User) (isNewUserCreated : Bool)
    (newOrderId : String) (db : DB) : (Except ErrResponse CreateOk) × DB :=
  let pages := b.pages.getD 0
  let copies := b.copies.getD 0
  let totalAmount := pages * copies * 5
  let newOrder : Order :=
    { id := newOrderId
      name := jsTrim (b.name.getD "")
      phone := b.phone.getD ""
      pages := pages
      tokenId := user.tokenId
      copies := copies
      notes := jsNotesOrNull b.notes
      totalAmount := totalAmount
      status := .PENDING
      paymentStatus := .PENDING
      files := b.files.getD []
      userId := user.id }
  (.ok { orderId := newOrderId, tokenId := user.tokenId
         isNewUser := isNewUserCreated, totalAmount := totalAmount },
   { db with orders := db.orders ++ [newOrder] })

/-- `POST` of `src/app/api/orders/route.ts` (order creation), step for
step: required fields, phone format, `copies/pages ≥ 1`, non-empty files,
token presence and format for existing users; then either the new-user
path (`PHONE_EXISTS` guard, fresh identity) or the existing-user path
(lookup by token alone, then token-phone match); finally the shared order
insertion.  `newUserId`/`newTokenId`/`newOrderId` stand for the generated
cuids and the `TK-...` token. -/
def createOrderPOST (b : CreateBody) (newUserId newTokenId newOrderId : String)
    (db : DB) : (Except ErrResponse CreateOk) × DB :=
  let missing := createMissingFields b
  if missing != [] then
    (.error (missingFieldsErr missing), db)
  else if !validPhone (b.phone.getD "") then
    (.error { error := "Please enter a valid 10-digit mobile number"
              code := "PHONE_INVALID", httpStatus := 400, field := some "phone" }, db)
  else if b.copies.getD 0 < 1 || b.pages.getD 0 < 1 then
    (.error { error := "Copies and pages must be at least 1", code := "VALIDATION"
              httpStatus := 400
              field := some (if b.copies.getD 0 < 1 then "copies" else "pages") }, db)
  else if (b.files.getD []).isEmpty then
    (.error { error := "At least one file is required", code := "VALIDATION"
              httpStatus := 400, field := some "files" }, db)
  else if b.isNewUser.getD false == false && jsTrim (b.tokenId.getD "") == "" then
    (.error { error := "Token ID is required for existing users. If you are a new user, please check the \"I\x27m new user\" checkbox."
              code := "TOKEN_REQUIRED", httpStatus := 400, field := some "tokenId"
              suggestion := some "Check \"I\x27m new user\" if this is your first order, or enter your existing Token ID" }, db)
  else if b.isNewUser.getD false == false && !validTokenId (b.tokenId.getD "") then
    (.error { error := "Token ID appears to be invalid", code := "TOKEN_INVALID"
              httpStatus := 400, field := some "tokenId" }, db)
  else if b.isNewUser.getD false then
    match db.findUserByPhone (b.phone.getD "") with
    | some _ =>
      (.error { error := "This phone number is already registered. Please uncheck \"I\x27m new user\" and enter your Token ID."
                code := "PHONE_EXISTS", httpStatus := 409, field := some "phone"
                suggestion := some "Uncheck \"I\x27m new user\" and enter your existing Token ID" }, db)
    | none =>
      -- `prisma.user.create` raises `P2002` if the generated token collides
      -- with an existing row; the route maps it via `handlePrismaError`.
      if db.users.any (fun u => u.tokenId == newTokenId) then
        (.error (handlePrismaError (.uniqueViolation "tokenId")), db)
      else
        let user : User :=
          { id := newUserId, phone := b.phone.getD "", tokenId := newTokenId
            isVerified := false }
        finishCreate b user true newOrderId { db with users := db.users ++ [user] }
  else
    match db.findUserByToken (b.tokenId.getD "") with
    | none =>
      (.error { error := "Invalid Token ID. Please check your Token ID or contact support if you have forgotten it."
                code := "TOKEN_INVALID", httpStatus := 404, field := some "tokenId"
                suggestion := some "Double-check your Token ID or contact admin for assistance" }, db)
    | some user =>
      if user.phone != b.phone.getD "" then
        (.error { error := "Token ID does not match the phone number provided. Please verify both details."
                  code := "TOKEN_MISMATCH", httpStatus := 400, field := some "tokenId"
                  suggestion := some "Ensure the Token ID belongs to the phone number you entered" }, db)
      else
        finishCreate b user false newOrderId db

/-- JS truthiness of an optional string (`!status`): present and
non-empty. -/
def jsTruthyStr : Option String → Bool
  | none => false
  | some s => s != ""

/-- `validStatuses` of the admin update route (`PATCH /api/orders`). -/
def validStatuses : List String := ["PENDING", "COMPLETED", "CANCELLED"]

/-- `validPaymentStatuses` of the admin update route. -/
def validPaymentStatuses : List String := ["PENDING", "PAID", "VERIFIED"]

/-- Decode a validated status string into the stored enum. -/
def OrderStatus.ofString : String → OrderStatus
  | "COMPLETED" => .COMPLETED
  | "CANCELLED" => .CANCELLED
  | _ => .PENDING

/-- Decode a validated payment-status string into the stored enum. -/
def PaymentStatus.ofString : String → PaymentStatus
  | "PAID" => .PAID
  | "VERIFIED" => .VERIFIED
  | _ => .PENDING

/-- `PATCH` of `src/app/api/orders/route.ts` (admin status update):
order-id presence and CUID check, at-least-one-field check, enum
validation of each supplied field, then an unconditional
`prisma.order.update` writing exactly the supplied fields (`P2025`, a
missing row, is mapped to a 404). -/
def updateOrderPATCH (orderId : Option String) (status paymentStatus : Option String)
    (db : DB) : (Except ErrResponse Order) × DB :=
  if !jsTruthyStr orderId then
    (.error { error := "Order ID is required", code := "MISSING_FIELDS"
              httpStatus := 400, field := some "id" }, db)
  else if !validCuid (orderId.getD "") then
    (.error { error := "Invalid ID format", code := "VALIDATION", httpStatus := 400
              field := some "id" }, db)
  else if !jsTruthyStr status && !jsTruthyStr paymentStatus then
    (.error { error := "Status or paymentStatus is required", code := "MISSING_FIELDS"
              httpStatus := 400
              suggestion := some "Provide either status or paymentStatus to update" }, db)
  else if jsTruthyStr status && !validStatuses.contains (status.getD "") then
    (.error { error := "Invalid status value. Valid values: " ++
                String.intercalate ", " validStatuses
              code := "VALIDATION", httpStatus := 400, field := some "status" }, db)
  else if jsTruthyStr paymentStatus &&
      !validPaymentStatuses.contains (paymentStatus.getD "") then
    (.error { error := "Invalid paymentStatus value. Valid values: " ++
                String.intercalate ", " validPaymentStatuses
              code := "VALIDATION", httpStatus := 400, field := some "paymentStatus" }, db)
  else
    match db.findOrder (orderId.getD "") with
    | none =>
      (.error { error := "Order not found", code := "ORDER_NOT_FOUND", httpStatus := 404
                suggestion := some "Check if the order ID is correct" }, db)
    | some order =>
      let updatedOrder :=
        { order with
          status := if jsTruthyStr status then .ofString (status.getD "")
                    else order.status
          paymentStatus := if jsTruthyStr paymentStatus then
                             .ofString (paymentStatus.getD "")
                           else order.paymentStatus }
      (.ok updatedOrder,
       db.updateOrder (orderId.getD "") fun o =>
         { o with
           status := if jsTruthyStr status then .ofString (status.getD "")
                     else o.status
           paymentStatus := if jsTruthyStr paymentStatus then
                              .ofString (paymentStatus.getD "")
                            else o.paymentStatus })

/-- `POST` of `src/app/api/orders/[id]/cancel/route.ts` (user
cancellation): id presence and CUID check, order lookup, PENDING gate with
a completed/cancelled-specific suggestion, the paid-order gate, then the
status write. -/
def cancelOrderPOST (orderId : String) (db : DB) : (Except ErrResponse Order) × DB :=
  if orderId == "" then
    (.error { error := "Order ID is required", code := "MISSING_FIELDS"
              httpStatus := 400, field := some "id" }, db)
  else if !validCuid orderId then
    (.error { error := "Invalid ID format", code := "VALIDATION", httpStatus := 400
              field := some "id" }, db)
  else
    match db.findOrder orderId with
    | none =>
      (.error { error := "Order not found", code := "ORDER_NOT_FOUND", httpStatus := 404
                suggestion := some "Check if the order ID is correct" }, db)
    | some order =>
      if order.status != .PENDING then
        (.error { error := "Order cannot be cancelled", code := "ORDER_CANNOT_CANCEL"
                  httpStatus := 400
                  currentStatus := some order.status
                  suggestion := some (if order.status == .COMPLETED then
                      "This order has already been completed"
                    else if order.status == .CANCELLED then
                      "This order has already been cancelled"
                    else "Only pending orders can be cancelled") }, db)
      else if order.paymentStatus == .VERIFIED || order.paymentStatus == .PAID then
        (.error { error := "Cannot cancel paid order", code := "PAYMENT_REQUIRED"
                  httpStatus := 400
                  suggestion := some "Please contact admin to cancel this order as payment has been processed" }, db)
      else
        (.ok { order with status := .CANCELLED },
         db.updateOrder orderId fun o => { o with status := .CANCELLED })

/-- Outcome of the token route's retry `while` loop: a persisted token
together with the final `attempts` counter, the response produced by a
non-retried write error (`handlePrismaError`), or normal loop exhaustion
(`attempts` reached `maxAttempts` without a break or return). -/
inductive TokenLoopResult where
  | success (token : String) (attempts : Nat)
  | prismaErr (e : ErrResponse)
  | exhausted
  deriving DecidableEq, Repr

/-- The retry `while (attempts < maxAttempts)` loop of
`src/app/api/token/route.ts`, with `maxAttempts = 3`.  `k` is the
`attempts` counter at loop entry and `fuel = 3 - k` keeps the recursion
structural; `gen k` is the token generated in iteration `k`
(`TK-${Date.now()}-...`), and `collides t` says whether persisting `t`
raises the `P2002` unique-constraint error.  A collision increments
`attempts` and retries only while `attempts < maxAttempts`; otherwise the
caught error is returned through `handlePrismaError`. -/
def tokenRetryLoop (gen : Nat → String) (collides : String → Bool) :
    Nat → Nat → TokenLoopResult
  | _, 0 => .exhausted
  | k, fuel + 1 =>
    if collides (gen k) then
      if k + 1 < 3 then tokenRetryLoop gen collides (k + 1) fuel
      else .prismaErr (handlePrismaError (.uniqueViolation "tokenId"))
    else .success (gen k) k

/-- Success payload of the token route
(`{tokenId, isNewUser, message}`). -/
structure TokenOk where
  tokenId : String
  isNewUser : Bool
  message : String
  deriving DecidableEq, Repr

/-- The dedicated `attempts >= maxAttempts` response of the token route. -/
def tokenGenFailedErr : ErrResponse :=
  { error := "Failed to generate unique token after multiple attempts"
    code := "SERVER", httpStatus := 500
    suggestion := some "Please try again later" }

/-- `POST` of `src/app/api/token/route.ts` (issue-or-rotate): phone
validation, lookup by phone, then either the rotate branch (update the
row, colliding when another row holds the generated token) or the create
branch (insert a row, colliding when any row holds the generated token).
Both branches run the retry loop and re-check `attempts >= maxAttempts`
after it; `newUserId` stands for the generated user cuid. -/
def tokenPOST (phoneOpt : Option String) (gen : Nat → String) (newUserId : String)
    (db : DB) : (Except ErrResponse TokenOk) × DB :=
  if !validPhone (phoneOpt.getD "") then
    (.error { error := "Please enter a valid 10-digit mobile number"
              code := "PHONE_INVALID", httpStatus := 400, field := some "phone" }, db)
  else
    let phone := phoneOpt.getD ""
    match db.findUserByPhone phone with
    | some _ =>
      match tokenRetryLoop gen
          (fun t => db.users.any fun u => u.tokenId == t && u.phone != phone) 0 3 with
      | .prismaErr e => (.error e, db)
      | .exhausted => (.error tokenGenFailedErr, db)
      | .success t attempts =>
        if attempts ≥ 3 then (.error tokenGenFailedErr, db)
        else
          (.ok { tokenId := t, isNewUser := false
                 message := "Token rotated successfully" },
           { db with users := db.users.map fun u =>
               if u.phone == phone then { u with tokenId := t } else u })
    | none =>
      match tokenRetryLoop gen
          (fun t => db.users.any fun u => u.tokenId == t) 0 3 with
      | .prismaErr e => (.error e, db)
      | .exhausted => (.error tokenGenFailedErr, db)
      | .success t attempts =>
        if attempts ≥ 3 then (.error tokenGenFailedErr, db)
        else
          (.ok { tokenId := t, isNewUser := true
                 message := "New user created with token" },
           { db with users := db.users ++
               [{ id := newUserId, phone := phone, tokenId := t, isVerified := false }] })

/-- Success payload of the bulk-verification route
(`{message, updatedCount}`). -/
structure BulkVerifyOk where
  message : String
  updatedCount : Nat
  deriving DecidableEq, Repr

/-- `PATCH` of `src/app/api/admin/users/route.ts` (bulk verification):
require a non-empty `userIds` array and a boolean `isVerified`, reject ids
shorter than 10 characters, then `prisma.user.updateMany` setting
`isVerified` on every matching row and reporting the matched count. -/
def adminUsersPATCH (userIds : Option (List String)) (isVerified : Option Bool)
    (db : DB) : (Except ErrResponse BulkVerifyOk) × DB :=
  match userIds with
  | none =>
    (.error { error := "User IDs are required", code := "MISSING_FIELDS"
              httpStatus := 400, field := some "userIds"
              suggestion := some "Provide an array of user IDs to update" }, db)
  | some ids =>
    if ids.isEmpty then
      (.error { error := "User IDs are required", code := "MISSING_FIELDS"
                httpStatus := 400, field := some "userIds"
                suggestion := some "Provide an array of user IDs to update" }, db)
    else
      match isVerified with
      | none =>
        (.error { error := "Verification status is required", code := "MISSING_FIELDS"
                  httpStatus := 400, field := some "isVerified"
                  suggestion := some "Provide a boolean value for verification status" }, db)
      | some b =>
        if ids.any (fun id => id.length < 10) then
          (.error { error := "Invalid user ID format", code := "INVALID_ORDER_ID"
                    httpStatus := 400, field := some "userIds"
                    suggestion := some "All user IDs must be valid CUIDs" }, db)
        else
          let count := (db.users.filter fun u => ids.contains u.id).length
          (.ok { message := "Successfully " ++ (if b then "verified" else "unverified") ++
                   " " ++ toString count ++ " user(s)"
                 updatedCount := count },
           { db with users := db.users.map fun u =>
               if ids.contains u.id then { u with isVerified := b } else u })

/-!  Concrete fixtures used by the witness and counterexample theorems. -/

/-- A well-formed order cuid (`c` + 24 of `[a-z0-9]`). -/
def oidW : String := "cabcdefghij0123456789klmn"

/-- A second well-formed order cuid. -/
def oidW2 : String := "c000000000000000000000000"

/-- Sample file descriptor, 3 pages. -/
def fA : FileDescriptor := { name := "a.pdf", pages := some 3 }

/-- Sample file descriptor, 2 pages. -/
def fB : FileDescriptor := { name := "b.pdf", pages := some 2 }

/-- A descriptor violating the positive-page-count assumption with a
negative (hence JS-truthy) value. -/
def fNeg : FileDescriptor := { name := "neg.pdf", pages := some (-5) }

/-- Sample pending order over `fA, fB` with the created-state price. -/
def ordW : Order :=
  { id := oidW, name := "N", phone := "9876543210", pages := 5, tokenId := "TK-1234567890"
    copies := 2, totalAmount := 50, status := .PENDING, paymentStatus := .PENDING
    files := [fA, fB], userId := "u1" }

/-- Sample store holding one user and `ordW`. -/
def dbW : DB :=
  { users := [{ id := "u1", phone := "9876543210", tokenId := "TK-1234567890", isVerified := false }]
    orders := [ordW] }

/-- Store whose pending order carries a negative-page descriptor next to a
normal one. -/
def dbNeg : DB :=
  { users := dbW.users
    orders := [{ ordW with id := oidW2, files := [fNeg, fB] }] }

/-- Sample create request body for the existing user of `dbW`. -/
def bodyW : CreateBody :=
  { name := some "N", phone := some "9876543210", copies := some 2, pages := some 5
    files := some [fA, fB], isNewUser := some false, tokenId := some "TK-1234567890" }

/-- Store in which the token generator `genT` collides on all three
attempts when rotating the token of phone `9876543210`. -/
def dbT : DB :=
  { users := [{ id := "u1", phone := "9876543210", tokenId := "TOLD00000000", isVerified := false },
              { id := "u2", phone := "9876543211", tokenId := "T0", isVerified := false },
              { id := "u3", phone := "9876543212", tokenId := "T1", isVerified := false },
              { id := "u4", phone := "9876543213", tokenId := "T2", isVerified := false }]
    orders := [] }

/-- Deterministic stand-in for the `TK-${Date.now()}-...` generator:
attempt `k` produces `T<k>`. -/
def genT : Nat → String := fun k => "T" ++ toString k

/-!  Helper lemmas. -/

/-- A string passing the CUID check is non-empty. -/
theorem validCuid_ne_empty {id : String} (h : validCuid id = true) : id ≠ "" := by
  intro he
  subst he
  exact absurd h (by decide)

/-- `prisma.order.update` semantics: an id-preserving row update is
visible to a subsequent `findUnique` on the same id. -/
theorem findOrder_updateOrder {l : List Order} {oid : String} {g : Order → Order}
    (hg : ∀ p, (g p).id = p.id) :
    ∀ {o : Order}, l.find? (fun p => p.id == oid) = some o →
      (l.map fun p => if p.id == oid then g p else p).find? (fun p => p.id == oid) =
        some (g o) := by
  induction l with
  | nil => intro o h; simp [List.find?] at h
  | cons a t ih =>
    intro o h
    cases hpa : (a.id == oid) with
    | true =>
      simp only [List.find?_cons, hpa] at h
      injection h with ha
      subst ha
      simp only [List.map_cons, List.find?_cons, hpa, if_true, hg a]
    | false =>
      simp only [List.find?_cons, hpa] at h
      simp only [List.map_cons, List.find?_cons, hpa, Bool.false_eq_true, if_false, hg a]
      exact ih h

/-- C1: detaching the sole remaining file of a PENDING order commits
`status = CANCELLED` and `files = []` and stops there — the stored
`pages` and `totalAmount` keep their last computed values (the committed
row differs from the old one in `files` and `status` alone), with no
price recomputation. -/
theorem detach_last_file_cancels (oid fn : String) (blobOk : Bool) (db : DB)
    (o : Order) (f : FileDescriptor)
    (hoid : validCuid oid = true)
    (hfn : sanitizeFilename fn = fn) (hfne : fn ≠ "")
    (hfind : db.findOrder oid = some o)
    (hst : o.status = .PENDING)
    (hfiles : o.files = [f])
    (hname : f.name = fn) :
    (removeFileDELETE oid fn blobOk db).response =
      .ok { orderCancelled := true, fileDeleted := blobOk } ∧
    (removeFileDELETE oid fn blobOk db).db.findOrder oid =
      some { o with files := [], status := .CANCELLED } := by
  have hne : oid ≠ "" := validCuid_ne_empty hoid
  have h1 : (oid == "" || fn == "") = false := by simp [hne, hfne]
  have h2 : (!validCuid oid) = false := by simp [hoid]
  have h3 : (sanitizeFilename fn != fn) = false := by simp [hfn]
  have h4 : (f.name == fn) = true := by simp [hname]
  have h5 : (f.name != fn) = false := by simp [hname]
  have h6 : (o.status != OrderStatus.PENDING) = false := by simp [hst]
  simp only [removeFileDELETE, h1, h2, h3, h6, hfind, hfiles, Bool.false_eq_true,
    if_false, List.find?_cons, List.find?_nil, h4, List.filter_cons, List.filter_nil,
    h5, List.isEmpty_nil, if_true]
  refine ⟨trivial, ?_⟩
  simp only [DB.findOrder, DB.updateOrder]
  apply findOrder_updateOrder _ hfind
  intro p
  rfl

/-- Witness for C1: in the concrete store `dbW` reduced to a single-file
order, detaching `a.pdf` cancels the order, empties its file list, and
leaves `pages`/`totalAmount` at 5/50. -/
theorem detach_last_file_cancels_witness :
    (removeFileDELETE oidW "a.pdf" true
        { dbW with orders := [{ ordW with files := [fA] }] }).response =
      .ok { orderCancelled := true, fileDeleted := true } ∧
    (removeFileDELETE oidW "a.pdf" true
        { dbW with orders := [{ ordW with files := [fA] }] }).db.findOrder oidW =
      some { ordW with files := ([] : List FileDescriptor), status := .CANCELLED } := by
  have h := detach_last_file_cancels oidW "a.pdf" true
    { dbW with orders := [{ ordW with files := [fA] }] }
    { ordW with files := [fA] } fA
    (by decide) (by decide) (by decide) (by decide) (by decide) (by decide) (by decide)
  exact h

/-- C3: on an order whose status is COMPLETED or CANCELLED, detach always
fails with the order-not-editable error (code `ORDER_CANNOT_CANCEL`,
carrying the current status) and performs no mutation: the store is
returned unchanged and the storage-delete step is never reached. -/
theorem detach_terminal_rejected (oid fn : String) (blobOk : Bool) (db : DB)
    (o : Order)
    (hoid : validCuid oid = true)
    (hfn : sanitizeFilename fn = fn) (hfne : fn ≠ "")
    (hfind : db.findOrder oid = some o)
    (hst : o.status = .COMPLETED ∨ o.status = .CANCELLED) :
    (removeFileDELETE oid fn blobOk db).response =
      .error { error := "Can only remove files from pending orders"
               code := "ORDER_CANNOT_CANCEL", httpStatus := 400
               currentStatus := some o.status
               suggestion := some "Only pending orders allow file removal" } ∧
    (removeFileDELETE oid fn blobOk db).db = db ∧
    (removeFileDELETE oid fn blobOk db).blobDeleteAttempted = false := by
  have hne : oid ≠ "" := validCuid_ne_empty hoid
  have h1 : (oid == "" || fn == "") = false := by simp [hne, hfne]
  have h2 : (!validCuid oid) = false := by simp [hoid]
  have h3 : (sanitizeFilename fn != fn) = false := by simp [hfn]
  have h6 : (o.status != OrderStatus.PENDING) = true := by
    cases hst with
    | inl h => simp [h]
    | inr h => simp [h]
  simp only [removeFileDELETE, h1, h2, h3, h6, hfind, Bool.false_eq_true, if_false,
    if_true]
  exact ⟨trivial, trivial, trivial⟩

/-- Witness for C3: detaching `a.pdf` from the completed variant of `ordW`
is rejected with the order-not-editable error and leaves the store
untouched, without reaching the storage delete. -/
theorem detach_terminal_rejected_witness :
    (removeFileDELETE oidW "a.pdf" true
        { dbW with orders := [{ ordW with status := .COMPLETED }] }).response =
      .error { error := "Can only remove files from pending orders"
               code := "ORDER_CANNOT_CANCEL", httpStatus := 400
               currentStatus := some OrderStatus.COMPLETED
               suggestion := some "Only pending orders allow file removal" } ∧
    (removeFileDELETE oidW "a.pdf" true
        { dbW with orders := [{ ordW with status := .COMPLETED }] }).db =
      { dbW with orders := [{ ordW with status := .COMPLETED }] } ∧
    (removeFileDELETE oidW "a.pdf" true
        { dbW with orders := [{ ordW with status := .COMPLETED }] }).blobDeleteAttempted =
      false := by
  have h := detach_terminal_rejected oidW "a.pdf" true
    { dbW with orders := [{ ordW with status := .COMPLETED }] }
    { ordW with status := .COMPLETED }
    (by decide) (by decide) (by decide) (by decide) (Or.inl (by decide))
  exact h

/-- C4: cancelling an existing PENDING order whose payment status is PAID
or VERIFIED fails with the payment-already-processed error (code
`PAYMENT_REQUIRED`, suggesting to contact the admin) and changes nothing:
the store is returned as-is, so the order stays PENDING. -/
theorem cancel_paid_rejected (oid : String) (db : DB) (o : Order)
    (hoid : validCuid oid = true)
    (hfind : db.findOrder oid = some o)
    (hst : o.status = .PENDING)
    (hpay : o.paymentStatus = .PAID ∨ o.paymentStatus = .VERIFIED) :
    cancelOrderPOST oid db =
      (.error { error := "Cannot cancel paid order", code := "PAYMENT_REQUIRED"
                httpStatus := 400
                suggestion := some "Please contact admin to cancel this order as payment has been processed" },
       db) := by
  have hne : oid ≠ "" := validCuid_ne_empty hoid
  have h1 : (oid == "") = false := by simp [hne]
  have h2 : (!validCuid oid) = false := by simp [hoid]
  have h3 : (o.status != OrderStatus.PENDING) = false := by simp [hst]
  have h4 : (o.paymentStatus == PaymentStatus.VERIFIED ||
      o.paymentStatus == PaymentStatus.PAID) = true := by
    cases hpay with
    | inl h => simp [h]
    | inr h => simp [h]
  simp only [cancelOrderPOST, h1, h2, h3, h4, hfind, Bool.false_eq_true, if_false,
    if_true]

/-- Witness for C4: cancelling the PAID variant of `ordW` is rejected with
the payment-already-processed error and the store is unchanged. -/
theorem cancel_paid_rejected_witness :
    cancelOrderPOST oidW { dbW with orders := [{ ordW with paymentStatus := .PAID }] } =
      (.error { error := "Cannot cancel paid order", code := "PAYMENT_REQUIRED"
                httpStatus := 400
                suggestion := some "Please contact admin to cancel this order as payment has been processed" },
       { dbW with orders := [{ ordW with paymentStatus := .PAID }] }) := by
  have h := cancel_paid_rejected oidW
    { dbW with orders := [{ ordW with paymentStatus := .PAID }] }
    { ordW with paymentStatus := .PAID }
    (by decide) (by decide) (by decide) (Or.inl (by decide))
  exact h

/-- A token passing `validateTokenId` has a non-empty trimmed form. -/
theorem validTokenId_trim_ne {tok : String} (h : validTokenId tok = true) :
    jsTrim tok ≠ "" := by
  intro he
  have h10 : 10 ≤ (jsTrim tok).length := by simpa [validTokenId] using h
  rw [he] at h10
  simp at h10

/-- C5: for `isNewUser = false` (after the field validations), the create
route resolves the identity by token alone first — an unknown token fails
with the dedicated token-not-found error — and only then compares the
resolved identity's phone with the supplied one, failing with
`TOKEN_MISMATCH` and leaving the store unchanged (no order row) when they
differ. -/
theorem create_token_checks (b : CreateBody) (nid ntok noid : String) (db : DB)
    (hmiss : createMissingFields b = [])
    (hphone : validPhone (b.phone.getD "") = true)
    (hcp : 1 ≤ b.copies.getD 0) (hpg : 1 ≤ b.pages.getD 0)
    (hfiles : b.files.getD [] ≠ [])
    (hnew : b.isNewUser = some false)
    (htok : validTokenId (b.tokenId.getD "") = true) :
    (db.findUserByToken (b.tokenId.getD "") = none →
      createOrderPOST b nid ntok noid db =
        (.error { error := "Invalid Token ID. Please check your Token ID or contact support if you have forgotten it."
                  code := "TOKEN_INVALID", httpStatus := 404, field := some "tokenId"
                  suggestion := some "Double-check your Token ID or contact admin for assistance" },
         db)) ∧
    (∀ u, db.findUserByToken (b.tokenId.getD "") = some u →
      u.phone ≠ b.phone.getD "" →
      createOrderPOST b nid ntok noid db =
        (.error { error := "Token ID does not match the phone number provided. Please verify both details."
                  code := "TOKEN_MISMATCH", httpStatus := 400, field := some "tokenId"
                  suggestion := some "Ensure the Token ID belongs to the phone number you entered" },
         db)) := by
  have htrim : jsTrim (b.tokenId.getD "") ≠ "" := validTokenId_trim_ne htok
  have hb1 : (createMissingFields b != []) = false := by simp [hmiss]
  have hb2 : (!validPhone (b.phone.getD "")) = false := by simp [hphone]
  have hb3 : (decide (b.copies.getD 0 < 1) || decide (b.pages.getD 0 < 1)) = false := by
    simp only [Bool.or_eq_false_iff, decide_eq_false_iff_not, not_lt]
    exact ⟨hcp, hpg⟩
  have hb4 : (b.files.getD []).isEmpty = false := by
    cases hfl : b.files.getD [] with
    | nil => exact absurd hfl hfiles
    | cons a t => rfl
  have hb5 : (b.isNewUser.getD false == false &&
      (jsTrim (b.tokenId.getD "") == "")) = false := by simp [hnew, htrim]
  have hb6 : (b.isNewUser.getD false == false &&
      !validTokenId (b.tokenId.getD "")) = false := by simp [hnew, htok]
  have hb7 : (b.isNewUser.getD false) = false := by simp [hnew]
  constructor
  · intro hnone
    simp only [createOrderPOST, hb1, hb2, hb3, hb4, hb5, hb6, hb7, hnone,
      Bool.false_eq_true, if_false, if_true]
    simp [htrim, htok]
  · intro u hu hne
    have hbne : (u.phone != b.phone.getD "") = true := by simp [hne]
    simp only [createOrderPOST, hb1, hb2, hb3, hb4, hb5, hb6, hb7, hu, hbne,
      Bool.false_eq_true, if_false, if_true]
    simp [htrim, htok]

/-- Witness for C5: with `dbW`, a request carrying the stored token but the
wrong phone fails with `TOKEN_MISMATCH` and the store is unchanged, and an
unknown token fails with the token-not-found error. -/
theorem create_token_checks_witness :
    createOrderPOST { bodyW with phone := some "9876543211" } "u9" "TK-fresh0000"
        oidW2 dbW =
      (.error { error := "Token ID does not match the phone number provided. Please verify both details."
                code := "TOKEN_MISMATCH", httpStatus := 400, field := some "tokenId"
                suggestion := some "Ensure the Token ID belongs to the phone number you entered" },
       dbW) ∧
    createOrderPOST { bodyW with tokenId := some "TK-unknown99" } "u9" "TK-fresh0000"
        oidW2 dbW =
      (.error { error := "Invalid Token ID. Please check your Token ID or contact support if you have forgotten it."
                code := "TOKEN_INVALID", httpStatus := 404, field := some "tokenId"
                suggestion := some "Double-check your Token ID or contact admin for assistance" },
       dbW) := by
  constructor
  · have h := create_token_checks { bodyW with phone := some "9876543211" }
      "u9" "TK-fresh0000" oidW2 dbW (by decide) (by decide) (by decide) (by decide)
      (by decide) (by decide) (by decide)
    exact h.2 { id := "u1", phone := "9876543210", tokenId := "TK-1234567890", isVerified := false }
      (by decide) (by decide)
  · have h := create_token_checks { bodyW with tokenId := some "TK-unknown99" }
      "u9" "TK-fresh0000" oidW2 dbW (by decide) (by decide) (by decide) (by decide)
      (by decide) (by decide) (by decide)
    exact h.1 (by decide)

/-- C6: for `isNewUser = true` (after the field validations), the create
route fails with `PHONE_EXISTS` and changes nothing when an identity
already holds the supplied phone; when no identity holds it (and the
generated token is fresh), exactly one new identity row for that phone is
appended. -/
theorem create_new_user_guard (b : CreateBody) (nid ntok noid : String) (db : DB)
    (hmiss : createMissingFields b = [])
    (hphone : validPhone (b.phone.getD "") = true)
    (hcp : 1 ≤ b.copies.getD 0) (hpg : 1 ≤ b.pages.getD 0)
    (hfiles : b.files.getD [] ≠ [])
    (hnew : b.isNewUser = some true) :
    (∀ u, db.findUserByPhone (b.phone.getD "") = some u →
      createOrderPOST b nid ntok noid db =
        (.error { error := "This phone number is already registered. Please uncheck \"I\x27m new user\" and enter your Token ID."
                  code := "PHONE_EXISTS", httpStatus := 409, field := some "phone"
                  suggestion := some "Uncheck \"I\x27m new user\" and enter your existing Token ID" },
         db)) ∧
    (db.findUserByPhone (b.phone.getD "") = none →
      (db.users.any fun u => u.tokenId == ntok) = false →
      (createOrderPOST b nid ntok noid db).2.users =
        db.users ++ [{ id := nid, phone := b.phone.getD "", tokenId := ntok
                       isVerified := false }]) := by
  have hb1 : (createMissingFields b != []) = false := by simp [hmiss]
  have hb2 : (!validPhone (b.phone.getD "")) = false := by simp [hphone]
  have hb3 : (decide (b.copies.getD 0 < 1) || decide (b.pages.getD 0 < 1)) = false := by
    simp only [Bool.or_eq_false_iff, decide_eq_false_iff_not, not_lt]
    exact ⟨hcp, hpg⟩
  have hb4 : (b.files.getD []).isEmpty = false := by
    cases hfl : b.files.getD [] with
    | nil => exact absurd hfl hfiles
    | cons a t => rfl
  have hb7 : (b.isNewUser.getD false) = true := by simp [hnew]
  constructor
  · intro u hu
    simp only [createOrderPOST, hb1, hb2, hb3, hb4, hb7, hu,
      Bool.false_eq_true, if_false, if_true]
    simp
  · intro hnone hcol
    simp only [createOrderPOST, hb1, hb2, hb3, hb4, hb7, hnone, hcol,
      Bool.false_eq_true, if_false, if_true, finishCreate]
    simp

/-- Witness for C6: creating as "new user" with the already-registered
phone of `dbW` fails with `PHONE_EXISTS` and leaves the store unchanged,
while a fresh phone appends exactly one identity row. -/
theorem create_new_user_guard_witness :
    createOrderPOST { bodyW with isNewUser := some true } "u9" "TK-fresh0000"
        oidW2 dbW =
      (.error { error := "This phone number is already registered. Please uncheck \"I\x27m new user\" and enter your Token ID."
                code := "PHONE_EXISTS", httpStatus := 409, field := some "phone"
                suggestion := some "Uncheck \"I\x27m new user\" and enter your existing Token ID" },
       dbW) ∧
    (createOrderPOST { bodyW with isNewUser := some true, phone := some "9123456789" }
        "u9" "TK-fresh0000" oidW2 dbW).2.users =
      dbW.users ++ [{ id := "u9", phone := "9123456789", tokenId := "TK-fresh0000"
                      isVerified := false }] := by
  constructor
  · have h := create_new_user_guard { bodyW with isNewUser := some true }
      "u9" "TK-fresh0000" oidW2 dbW (by decide) (by decide) (by decide) (by decide)
      (by decide) (by decide)
    exact h.1 { id := "u1", phone := "9876543210", tokenId := "TK-1234567890", isVerified := false }
      (by decide)
  · have h := create_new_user_guard
      { bodyW with isNewUser := some true, phone := some "9123456789" }
      "u9" "TK-fresh0000" oidW2 dbW (by decide) (by decide) (by decide) (by decide)
      (by decide) (by decide)
    exact h.2 (by decide) (by decide)

/-- C2: the committed price always satisfies
`totalAmount = totalPages × copies × pricePerPage` with `pricePerPage = 5`:
every successful create appends exactly one order whose stored `pages` is
the caller-supplied count and whose `totalAmount` is `pages × copies × 5`;
and every successful detach that leaves at least one file commits a row
whose `pages` is the recomputed sum over the remaining descriptors and
whose `totalAmount` is that sum `× copies × 5`. -/
theorem price_invariant :
    (∀ (b : CreateBody) (nid ntok noid : String) (db db' : DB) (v : CreateOk),
      createOrderPOST b nid ntok noid db = (.ok v, db') →
      ∃ o : Order, db'.orders = db.orders ++ [o] ∧
        o.totalAmount = o.pages * o.copies * 5 ∧
        o.pages = b.pages.getD 0 ∧ v.totalAmount = o.totalAmount) ∧
    (∀ (oid fn : String) (blobOk : Bool) (db : DB) (o : Order),
      validCuid oid = true → sanitizeFilename fn = fn → fn ≠ "" →
      db.findOrder oid = some o → o.status = .PENDING →
      (o.files.find? fun f => f.name == fn).isSome = true →
      (o.files.filter fun f => f.name != fn) ≠ [] →
      ∃ o' : Order,
        (removeFileDELETE oid fn blobOk db).response =
          .ok { orderCancelled := false, fileDeleted := blobOk
                updatedOrder := some o' } ∧
        (removeFileDELETE oid fn blobOk db).db.findOrder oid = some o' ∧
        o'.totalAmount = o'.pages * o'.copies * 5 ∧
        o'.pages = (o.files.filter fun f => f.name != fn).foldl
          (fun sum f => sum + jsPagesOrOne f.pages) 0) := by
  constructor
  · intro b nid ntok noid db db' v h
    simp only [createOrderPOST] at h
    repeat' split at h
    all_goals try (exact absurd h (by simp))
    all_goals
      simp only [finishCreate, Prod.mk.injEq, Except.ok.injEq] at h
      obtain ⟨hv, hdb⟩ := h
      subst hdb
      exact ⟨_, rfl, rfl, rfl, by rw [← hv]⟩
  · intro oid fn blobOk db o hoid hfn hfne hfind hst hmem hrem
    have hne : oid ≠ "" := validCuid_ne_empty hoid
    have h1 : (oid == "" || fn == "") = false := by simp [hne, hfne]
    have h2 : (!validCuid oid) = false := by simp [hoid]
    have h3 : (sanitizeFilename fn != fn) = false := by simp [hfn]
    have h6 : (o.status != OrderStatus.PENDING) = false := by simp [hst]
    have h7 : (o.files.filter fun f => f.name != fn).isEmpty = false := by
      cases hfl : o.files.filter fun f => f.name != fn with
      | nil => exact absurd hfl hrem
      | cons a t => rfl
    obtain ⟨fzero, hfz⟩ := Option.isSome_iff_exists.mp hmem
    simp only [removeFileDELETE, h1, h2, h3, h6, hfind, hfz, h7,
      Bool.false_eq_true, if_false, if_true]
    refine ⟨_, rfl, ?_, rfl, rfl⟩
    simp only [DB.findOrder, DB.updateOrder]
    apply findOrder_updateOrder _ hfind
    intro p
    rfl

/-- Witness for C2: creating `bodyW` over `dbW` commits `totalAmount = 50
= 5 × 2 × 5`, and detaching `a.pdf` from `ordW` commits the recomputed
row with `pages = 2` and `totalAmount = 20 = 2 × 2 × 5`. -/
theorem price_invariant_witness :
    (∃ o : Order,
      (createOrderPOST bodyW "u9" "TK-fresh0000" oidW2 dbW).2.orders =
        dbW.orders ++ [o] ∧
      o.totalAmount = o.pages * o.copies * 5 ∧ o.pages = 5 ∧ o.totalAmount = 50) ∧
    (∃ o' : Order,
      (removeFileDELETE oidW "a.pdf" true dbW).db.findOrder oidW = some o' ∧
      o'.totalAmount = o'.pages * o'.copies * 5 ∧
      o'.pages = 2 ∧ o'.totalAmount = 20) := by
  constructor
  · obtain ⟨o, h1, h2, h3, h4⟩ := price_invariant.1 bodyW "u9" "TK-fresh0000" oidW2
      dbW (createOrderPOST bodyW "u9" "TK-fresh0000" oidW2 dbW).2
      { orderId := oidW2, tokenId := "TK-1234567890", isNewUser := false
        totalAmount := 50 }
      (by decide)
    refine ⟨o, h1, h2, ?_, ?_⟩
    · rw [h3]; decide
    · rw [← h4]
  · obtain ⟨o', h1, h2, h3, h4⟩ := price_invariant.2 oidW "a.pdf" true dbW ordW
      (by decide) (by decide) (by decide) (by decide) (by decide) (by decide)
      (by decide)
    have hcalc : (removeFileDELETE oidW "a.pdf" true dbW).response =
        .ok { orderCancelled := false, fileDeleted := true
              updatedOrder :=
                some { ordW with files := [fB], pages := 2, totalAmount := 20 } } := by
      decide
    have hh := h1.symm.trans hcalc
    simp only [Except.ok.injEq, DetachOk.mk.injEq, Option.some.injEq, true_and] at hh
    subst hh
    exact ⟨_, h2, h3, by decide, by decide⟩

/-- C8: the admin update accepts `status` and `paymentStatus`
independently and validates each supplied (non-empty) value against
exactly `validStatuses = [PENDING, COMPLETED, CANCELLED]` and
`validPaymentStatuses = [PENDING, PAID, VERIFIED]` before any write: a
value outside its enum is rejected with a `VALIDATION` error and the store
is unchanged — including when it is supplied together with a valid value
for the other field — while values inside the enums are written to the
found order regardless of its current state, each supplied field
independently. -/
theorem admin_update_enum_validation (oid : String) (db : DB) (o : Order)
    (hoid : validCuid oid = true)
    (hfind : db.findOrder oid = some o) :
    (∀ s ps, s ≠ "" → validStatuses.contains s = false →
      updateOrderPATCH (some oid) (some s) ps db =
        (.error { error := "Invalid status value. Valid values: " ++
                    String.intercalate ", " validStatuses
                  code := "VALIDATION", httpStatus := 400, field := some "status" },
         db)) ∧
    (∀ p, p ≠ "" → validPaymentStatuses.contains p = false →
      updateOrderPATCH (some oid) none (some p) db =
        (.error { error := "Invalid paymentStatus value. Valid values: " ++
                    String.intercalate ", " validPaymentStatuses
                  code := "VALIDATION", httpStatus := 400
                  field := some "paymentStatus" },
         db)) ∧
    (∀ s p, s ≠ "" → p ≠ "" → validStatuses.contains s = true →
      validPaymentStatuses.contains p = false →
      updateOrderPATCH (some oid) (some s) (some p) db =
        (.error { error := "Invalid paymentStatus value. Valid values: " ++
                    String.intercalate ", " validPaymentStatuses
                  code := "VALIDATION", httpStatus := 400
                  field := some "paymentStatus" },
         db)) ∧
    (∀ s p, s ≠ "" → p ≠ "" → validStatuses.contains s = true →
      validPaymentStatuses.contains p = true →
      (updateOrderPATCH (some oid) (some s) (some p) db).1 =
        .ok { o with status := OrderStatus.ofString s
                     paymentStatus := PaymentStatus.ofString p } ∧
      (updateOrderPATCH (some oid) (some s) (some p) db).2.findOrder oid =
        some { o with status := OrderStatus.ofString s
                      paymentStatus := PaymentStatus.ofString p }) ∧
    (∀ s, s ≠ "" → validStatuses.contains s = true →
      (updateOrderPATCH (some oid) (some s) none db).2.findOrder oid =
        some { o with status := OrderStatus.ofString s }) ∧
    (∀ p, p ≠ "" → validPaymentStatuses.contains p = true →
      (updateOrderPATCH (some oid) none (some p) db).2.findOrder oid =
        some { o with paymentStatus := PaymentStatus.ofString p }) := by
  have hne : oid ≠ "" := validCuid_ne_empty hoid
  have ho1 : jsTruthyStr (some oid) = true := by simp [jsTruthyStr, hne]
  have ho2 : (!validCuid oid) = false := by simp [hoid]
  refine ⟨?_, ?_, ?_, ?_, ?_, ?_⟩
  · intro s ps hs hrej
    have hts : jsTruthyStr (some s) = true := by simp [jsTruthyStr, hs]
    simp only [updateOrderPATCH, ho1, ho2, hts, hrej, Bool.false_eq_true, if_false,
      Bool.not_true, Bool.false_and, Bool.true_and, Bool.not_false, if_true,
      Option.getD_some]
  · intro p hp hrej
    have htp : jsTruthyStr (some p) = true := by simp [jsTruthyStr, hp]
    have htn : jsTruthyStr none = false := rfl
    simp only [updateOrderPATCH, ho1, ho2, htp, htn, hrej, Bool.false_eq_true,
      if_false, Bool.not_true, Bool.not_false, Bool.false_and, Bool.true_and,
      Bool.and_false, Bool.and_true, if_true, Option.getD_some]
  · intro s p hs hp hoks hrej
    have hts : jsTruthyStr (some s) = true := by simp [jsTruthyStr, hs]
    have htp : jsTruthyStr (some p) = true := by simp [jsTruthyStr, hp]
    simp only [updateOrderPATCH, ho1, ho2, hts, htp, hoks, hrej,
      Bool.false_eq_true, if_false, Bool.not_true, Bool.not_false, Bool.false_and,
      Bool.true_and, Bool.and_false, Bool.and_true, if_true, Option.getD_some]
  · intro s p hs hp hoks hokp
    have hts : jsTruthyStr (some s) = true := by simp [jsTruthyStr, hs]
    have htp : jsTruthyStr (some p) = true := by simp [jsTruthyStr, hp]
    simp only [updateOrderPATCH, ho1, ho2, hts, htp, hoks, hokp, hfind,
      Bool.false_eq_true, if_false, Bool.not_true, Bool.not_false, Bool.false_and,
      Bool.true_and, Bool.and_false, Bool.and_true, if_true, Option.getD_some]
    refine ⟨trivial, ?_⟩
    simp only [DB.findOrder, DB.updateOrder]
    apply findOrder_updateOrder _ hfind
    intro q
    rfl
  · intro s hs hoks
    have hts : jsTruthyStr (some s) = true := by simp [jsTruthyStr, hs]
    have htn : jsTruthyStr none = false := rfl
    simp only [updateOrderPATCH, ho1, ho2, hts, htn, hoks, hfind,
      Bool.false_eq_true, if_false, Bool.not_true, Bool.not_false, Bool.false_and,
      Bool.true_and, Bool.and_false, Bool.and_true, if_true, Option.getD_some]
    simp only [DB.findOrder, DB.updateOrder]
    apply findOrder_updateOrder _ hfind
    intro q
    rfl
  · intro p hp hokp
    have htp : jsTruthyStr (some p) = true := by simp [jsTruthyStr, hp]
    have htn : jsTruthyStr none = false := rfl
    simp only [updateOrderPATCH, ho1, ho2, htp, htn, hokp, hfind,
      Bool.false_eq_true, if_false, Bool.not_true, Bool.not_false, Bool.false_and,
      Bool.true_and, Bool.and_false, Bool.and_true, if_true, Option.getD_some]
    simp only [DB.findOrder, DB.updateOrder]
    apply findOrder_updateOrder _ hfind
    intro q
    rfl

/-- Witness for C8: on `dbW`, `RECEIVED` is rejected with the validation
error leaving the store unchanged; a valid `COMPLETED` supplied together
with an invalid `REFUNDED` paymentStatus is also rejected with no write;
and `COMPLETED`/`PAID` are written to the stored order unconditionally. -/
theorem admin_update_enum_validation_witness :
    updateOrderPATCH (some oidW) (some "RECEIVED") none dbW =
      (.error { error := "Invalid status value. Valid values: " ++
                  String.intercalate ", " validStatuses
                code := "VALIDATION", httpStatus := 400, field := some "status" },
       dbW) ∧
    updateOrderPATCH (some oidW) (some "COMPLETED") (some "REFUNDED") dbW =
      (.error { error := "Invalid paymentStatus value. Valid values: " ++
                  String.intercalate ", " validPaymentStatuses
                code := "VALIDATION", httpStatus := 400
                field := some "paymentStatus" },
       dbW) ∧
    (updateOrderPATCH (some oidW) (some "COMPLETED") (some "PAID") dbW).2.findOrder oidW =
      some { ordW with status := .COMPLETED, paymentStatus := .PAID } := by
  have h := admin_update_enum_validation oidW dbW ordW (by decide) (by decide)
  refine ⟨?_, ?_, ?_⟩
  · exact h.1 "RECEIVED" none (by decide) (by decide)
  · exact h.2.2.1 "COMPLETED" "REFUNDED" (by decide) (by decide) (by decide)
      (by decide)
  · have h3 := (h.2.2.2.1 "COMPLETED" "PAID" (by decide) (by decide) (by decide)
      (by decide)).2
    exact h3

/-- The bulk-verification row update is idempotent on each row. -/
theorem verifyRow_idem (ids : List String) (b : Bool) (u : User) :
    (fun u => if ids.contains u.id then { u with isVerified := b } else u)
      ((fun u => if ids.contains u.id then { u with isVerified := b } else u) u) =
    (fun u => if ids.contains u.id then { u with isVerified := b } else u) u := by
  by_cases hc : u.id ∈ ids
  · simp [hc]
  · simp [hc]

/-- An id-preserving row map does not change how many rows a
membership-by-id filter matches. -/
theorem length_filter_map_inv (l : List User) (f : User → User) (P : User → Bool)
    (hP : ∀ u, P (f u) = P u) :
    ((l.map f).filter P).length = (l.filter P).length := by
  induction l with
  | nil => rfl
  | cons a t ih =>
    simp only [List.map_cons, List.filter_cons, hP a]
    cases P a with
    | true => simp [ih]
    | false => simp [ih]

/-- C9: bulk verification with `isVerified = true` is idempotent: the
first call succeeds and marks every targeted row verified, and a second
identical call succeeds with the same response and leaves the store
exactly as the first call did — a no-op, not an error. -/
theorem bulk_verify_idempotent (ids : List String) (db : DB)
    (hne : ids ≠ [])
    (hlen : (ids.any fun id => id.length < 10) = false) :
    (∃ v, (adminUsersPATCH (some ids) (some true) db).1 = .ok v) ∧
    (adminUsersPATCH (some ids) (some true)
        (adminUsersPATCH (some ids) (some true) db).2).1 =
      (adminUsersPATCH (some ids) (some true) db).1 ∧
    (adminUsersPATCH (some ids) (some true)
        (adminUsersPATCH (some ids) (some true) db).2).2 =
      (adminUsersPATCH (some ids) (some true) db).2 ∧
    (∀ u ∈ (adminUsersPATCH (some ids) (some true) db).2.users,
      ids.contains u.id = true → u.isVerified = true) := by
  have hemp : ids.isEmpty = false := by
    cases hl : ids with
    | nil => exact absurd hl hne
    | cons a t => rfl
  have hmapfix :
      ((db.users.map fun u => if ids.contains u.id then { u with isVerified := true } else u).map
        fun u => if ids.contains u.id then { u with isVerified := true } else u) =
      db.users.map fun u => if ids.contains u.id then { u with isVerified := true } else u := by
    rw [List.map_map]
    exact List.map_congr_left fun u _ => verifyRow_idem ids true u
  have h164 :
      (((db.users.map fun u => if ids.contains u.id then { u with isVerified := true } else u).filter
          fun u => ids.contains u.id).length =
        ((db.users.filter fun u => ids.contains u.id)).length) := by
    apply length_filter_map_inv
    intro u
    by_cases hc : u.id ∈ ids
    · simp [hc]
    · simp [hc]
  refine ⟨?_, ?_, ?_, ?_⟩
  · simp only [adminUsersPATCH, hemp, hlen, Bool.false_eq_true, if_false, if_true]
    exact ⟨_, rfl⟩
  · simp only [adminUsersPATCH, hemp, hlen, Bool.false_eq_true, if_false, if_true,
      hmapfix, h164]
  · simp only [adminUsersPATCH, hemp, hlen, Bool.false_eq_true, if_false, if_true,
      hmapfix, h164]
  · intro u hu hc
    simp only [adminUsersPATCH, hemp, hlen, Bool.false_eq_true, if_false,
      if_true] at hu
    obtain ⟨w, hw, rfl⟩ := List.mem_map.mp hu
    by_cases hcw : w.id ∈ ids
    · simp [hcw]
    · simp [hcw] at hc

/-- Witness for C9: verifying the single user of a concrete store twice
succeeds both times, leaves `isVerified = true` both times, and the second
call changes nothing. -/
theorem bulk_verify_idempotent_witness :
    (∃ v, (adminUsersPATCH (some ["u100000000"]) (some true)
        { users := [{ id := "u100000000", phone := "9876543210"
                      tokenId := "TK-1234567890", isVerified := false }]
          orders := [] }).1 = .ok v) ∧
    (adminUsersPATCH (some ["u100000000"]) (some true)
        (adminUsersPATCH (some ["u100000000"]) (some true)
          { users := [{ id := "u100000000", phone := "9876543210"
                        tokenId := "TK-1234567890", isVerified := false }]
            orders := [] }).2).2 =
      (adminUsersPATCH (some ["u100000000"]) (some true)
        { users := [{ id := "u100000000", phone := "9876543210"
                      tokenId := "TK-1234567890", isVerified := false }]
          orders := [] }).2 ∧
    (∀ u ∈ (adminUsersPATCH (some ["u100000000"]) (some true)
        { users := [{ id := "u100000000", phone := "9876543210"
                      tokenId := "TK-1234567890", isVerified := false }]
          orders := [] }).2.users,
      ["u100000000"].contains u.id = true → u.isVerified = true) := by
  have h := bulk_verify_idempotent ["u100000000"]
    { users := [{ id := "u100000000", phone := "9876543210"
                  tokenId := "TK-1234567890", isVerified := false }]
      orders := [] }
    (by decide) (by decide)
  exact ⟨h.1, h.2.2.1, h.2.2.2⟩

/-- C7 (failing input): in `dbT` with generator `genT`, all three write
attempts collide; the route then answers with `handlePrismaError`'s
`P2002` mapping (HTTP 409, code `DUPLICATE_FILE`, "This tokenId is already
in use") and NOT with the dedicated token-generation-failed response —
that `attempts >= maxAttempts` branch is dead because the third collision
returns from inside the catch.  On a successful attempt (collision then
fresh token), the persisted row holds exactly the token returned to the
caller. -/
theorem token_retry_exhaustion_bug :
    (tokenPOST (some "9876543210") genT "u9" dbT).1 =
      .error (handlePrismaError (.uniqueViolation "tokenId")) ∧
    (tokenPOST (some "9876543210") genT "u9" dbT).1 ≠ .error tokenGenFailedErr ∧
    (tokenPOST (some "9876543210") genT "u9" dbT).2 = dbT ∧
    (tokenPOST (some "9876543210") (fun k => if k == 0 then "T0" else "TNEW000000")
        "u9" dbT).1 =
      .ok { tokenId := "TNEW000000", isNewUser := false
            message := "Token rotated successfully" } ∧
    ((tokenPOST (some "9876543210") (fun k => if k == 0 then "T0" else "TNEW000000")
        "u9" dbT).2.users.find? fun u => u.phone == "9876543210") =
      some { id := "u1", phone := "9876543210", tokenId := "TNEW000000"
             isVerified := false } := by
  decide

/-- Summing `f.pages || 1` over descriptors whose contribution is at least
one gives at least one per descriptor. -/
theorem foldl_pages_ge (l : List FileDescriptor) :
    (∀ f ∈ l, 1 ≤ jsPagesOrOne f.pages) →
    ∀ init : Int,
      init + l.length ≤ l.foldl (fun sum f => sum + jsPagesOrOne f.pages) init := by
  induction l with
  | nil => intro _ init; simp
  | cons a t ih =>
    intro hpos init
    have ha : 1 ≤ jsPagesOrOne a.pages := hpos a (by simp)
    have ht := ih (fun f hf => hpos f (List.mem_cons_of_mem a hf))
      (init + jsPagesOrOne a.pages)
    simp only [List.foldl_cons, List.length_cons]
    push_cast
    push_cast at ht
    omega

/-- C10 (counterexample): in `dbNeg`, removing `b.pdf` leaves one file
whose stored page count is the negative (JS-truthy, hence not replaced
by 1) value `-5`; the recomputed `totalPages` is `-5`, strictly below the
number of remaining files (1) — so the floor does not hold for every
descriptor violating the positive-page-count assumption. -/
theorem detach_pages_floor_cex :
    ((removeFileDELETE oidW2 "b.pdf" true dbNeg).db.findOrder oidW2).map Order.pages =
      some (-5) ∧
    (((removeFileDELETE oidW2 "b.pdf" true dbNeg).db.findOrder oidW2).map
      fun o => o.files.length) = some 1 ∧
    ¬((1 : Int) ≤ -5) := by
  decide

/-- C10 (amended): during the recompute branch of detach every remaining
descriptor whose `pages` is absent or `0` is counted as `1`
(`jsPagesOrOne`), so whenever no remaining descriptor carries a negative
page count the recomputed `totalPages` is at least the number of remaining
files. -/
theorem detach_pages_floor (oid fn : String) (blobOk : Bool) (db : DB) (o : Order)
    (hoid : validCuid oid = true) (hfn : sanitizeFilename fn = fn) (hfne : fn ≠ "")
    (hfind : db.findOrder oid = some o) (hst : o.status = .PENDING)
    (hmem : (o.files.find? fun f => f.name == fn).isSome = true)
    (hrem : (o.files.filter fun f => f.name != fn) ≠ [])
    (hnonneg : ∀ f ∈ o.files.filter (fun f => f.name != fn), 0 ≤ f.pages.getD 1) :
    (removeFileDELETE oid fn blobOk db).db.findOrder oid =
      some { o with
        files := o.files.filter fun f => f.name != fn
        pages := (o.files.filter fun f => f.name != fn).foldl
          (fun sum f => sum + jsPagesOrOne f.pages) 0
        totalAmount := ((o.files.filter fun f => f.name != fn).foldl
          (fun sum f => sum + jsPagesOrOne f.pages) 0) * o.copies * 5 } ∧
    (((o.files.filter fun f => f.name != fn).length : Int) ≤
      (o.files.filter fun f => f.name != fn).foldl
        (fun sum f => sum + jsPagesOrOne f.pages) 0) := by
  have hne : oid ≠ "" := validCuid_ne_empty hoid
  have h1 : (oid == "" || fn == "") = false := by simp [hne, hfne]
  have h2 : (!validCuid oid) = false := by simp [hoid]
  have h3 : (sanitizeFilename fn != fn) = false := by simp [hfn]
  have h6 : (o.status != OrderStatus.PENDING) = false := by simp [hst]
  have h7 : (o.files.filter fun f => f.name != fn).isEmpty = false := by
    cases hfl : o.files.filter fun f => f.name != fn with
    | nil => exact absurd hfl hrem
    | cons a t => rfl
  obtain ⟨fzero, hfz⟩ := Option.isSome_iff_exists.mp hmem
  have hpos : ∀ f ∈ o.files.filter (fun f => f.name != fn),
      1 ≤ jsPagesOrOne f.pages := by
    intro f hf
    have hn := hnonneg f hf
    cases hp : f.pages with
    | none => simp [jsPagesOrOne]
    | some v =>
      rw [hp] at hn
      simp only [Option.getD_some] at hn
      by_cases hv : v = 0
      · simp [jsPagesOrOne, hv]
      · simp only [jsPagesOrOne, hv, if_false]
        omega
  constructor
  · simp only [removeFileDELETE, h1, h2, h3, h6, hfind, hfz, h7,
      Bool.false_eq_true, if_false, if_true]
    simp only [DB.findOrder, DB.updateOrder]
    apply findOrder_updateOrder _ hfind
    intro p
    rfl
  · have hb := foldl_pages_ge (o.files.filter fun f => f.name != fn) hpos 0
    omega

/-- Witness for the amended C10: removing `a.pdf` from `ordW` leaves one
descriptor with 2 pages, and the committed recomputed row has
`pages = 2 ≥ 1`. -/
theorem detach_pages_floor_witness :
    (removeFileDELETE oidW "a.pdf" true dbW).db.findOrder oidW =
      some { ordW with files := [fB], pages := 2, totalAmount := 20 } ∧
    ((1 : Int) ≤ 2) := by
  have h := detach_pages_floor oidW "a.pdf" true dbW ordW
    (by decide) (by decide) (by decide) (by decide) (by decide) (by decide)
    (by decide) (by decide)
  exact ⟨h.1, by decide⟩

end RamanPrinters
